import Mathlib

/-!
Verification of the draft/publish engine of django-publish.

Shallow embedding of `publish/models.py` (class `Publishable`: `save`,
`delete`, `publish`, `PublishMeta.excluded_fields`) and of the batch
orchestrator `publish_selected` of `publish/actions.py`.

Modelling decisions, all taken from the source:
* A persisted record is an `Obj`; the database `DB` is a list of rows plus
  a separate many-to-many link store (Django keeps m2m links in join
  tables, so `Model.save` does not write them) and a fresh-key counter.
* Field values of the concrete type are an association list
  `name -> FieldVal`; `FieldVal` distinguishes scalar values, references
  to non-Publishable entities, and single references to Publishable
  entities, mirroring the `isinstance(field, RelatedField)` /
  `issubclass(related, Publishable)` tests of `Publishable.publish`.
  The four base fields `id` (the pk), `is_public`, `publish_state` and
  `public` are structure fields of `Obj`; the MRO walk of
  `PublishMeta.excluded_fields` always places them in the exclusion set
  (proved below), which is why `Publishable.publish` never copies them.
* The many-to-many schema of the concrete type (`_meta.many_to_many`)
  is the parameter `sch : List (String × Bool)`: field name together
  with whether the related model is a `Publishable` subclass.
* Machine recursion in `publish` is cut with an explicit fuel argument;
  all definitions are structurally recursive and kernel-computable.
* Python exceptions are the `exn` constructor; it carries the database
  at the moment of the raise, since an exception does not roll back
  already-performed writes.  `invalidState` is the `ValueError` raised
  on a public instance, `notPersisted` the `assert self.pk is not None`,
  `m2mOnUnsaved` the `ValueError` Django raises when a many-to-many
  manager is requested on an instance without a primary key,
  `addUnsaved` the `ValueError` raised by `manager.add` on an unsaved
  object, and `missingRow` a `DoesNotExist` of a dangling reference.
* The ghost `log` records the pk of every draft whose publish body runs
  past the visited-set check, so "publish logic executed exactly once"
  is observable.
-/

namespace DjangoPublish

/-- Constant `Publishable.PUBLISH_DEFAULT`. -/
def PUBLISH_DEFAULT : Nat := 0
/-- Constant `Publishable.PUBLISH_CHANGED`. -/
def PUBLISH_CHANGED : Nat := 1
/-- Constant `Publishable.PUBLISH_DELETE`. -/
def PUBLISH_DELETE : Nat := 2

/-- A value held by one concrete-type field of a `Publishable` model. -/
inductive FieldVal where
  | scalar (v : Nat)
  | relPlain (target : Option Nat)
  | relPub (target : Option Nat)
  deriving DecidableEq, Repr

/-- One record (a Django model instance).  `pk = none` means unsaved. -/
structure Obj where
  pk : Option Nat
  is_public : Bool
  publish_state : Nat
  public : Option Nat
  fields : List (String × FieldVal)
  deriving DecidableEq, Repr

/-- The persistence layer: rows, many-to-many join tables (keyed by
owner pk and field name), and the next fresh primary key. -/
structure DB where
  objs : List Obj
  links : List (Nat × String × List Nat)
  nextPk : Nat
  deriving DecidableEq, Repr

/-- Fetch the row with primary key `k`. -/
def DB.get (db : DB) (k : Nat) : Option Obj :=
  db.objs.find? (fun o => o.pk == some k)

/-- Replace the row with the same pk, or append a new row. -/
def DB.putRow (db : DB) (o : Obj) : DB :=
  if db.objs.any (fun r => r.pk == o.pk) then
    { db with objs := db.objs.map (fun r => if r.pk == o.pk then o else r) }
  else
    { db with objs := db.objs ++ [o] }

/-- Remove the row with primary key `k`. -/
def DB.delRow (db : DB) (k : Nat) : DB :=
  { db with objs := db.objs.filter (fun o => !(o.pk == some k)) }

/-- Read a many-to-many link set from the join-table store. -/
def DB.getLinks (db : DB) (owner : Nat) (name : String) : List Nat :=
  match db.links.find? (fun e => e.1 == owner && e.2.1 == name) with
  | some e => e.2.2
  | none => []

private def setLinksGo (owner : Nat) (name : String) (ls : List Nat) :
    List (Nat × String × List Nat) → List (Nat × String × List Nat)
  | [] => [(owner, name, ls)]
  | e :: rest =>
    if e.1 == owner && e.2.1 == name then (owner, name, ls) :: rest
    else e :: setLinksGo owner name ls rest

/-- Overwrite a many-to-many link set in the join-table store. -/
def DB.setLinks (db : DB) (owner : Nat) (name : String) (ls : List Nat) : DB :=
  { db with links := setLinksGo owner name ls db.links }

/-- Framework save `django.db.models.Model.save`: update the row in place, or insert the
instance under a fresh primary key when it has none yet. -/
def rawSave (o : Obj) (db : DB) : Obj × DB :=
  match o.pk with
  | some _ => (o, db.putRow o)
  | none =>
    let o2 := { o with pk := some db.nextPk }
    (o2, { (db.putRow o2) with nextPk := db.nextPk + 1 })

/-- Method `Publishable.save(self, mark_changed=True, *arg, **kw)`: a draft save
flips `publish_state` to CHANGED unless suppressed, then delegates to the
framework save. -/
def Publishable.save (markChanged : Bool) (o : Obj) (db : DB) : Obj × DB :=
  let o2 :=
    if !o.is_public && markChanged then { o with publish_state := PUBLISH_CHANGED }
    else o
  rawSave o2 db

/-- Outcome of `Publishable.delete`. -/
inductive DelOut where
  | ok (db : DB)
  | exn (db : DB)
  deriving DecidableEq, Repr

/-- Method `Publishable.delete`: when a public mirror exists, mark it
`PUBLISH_DELETE` and save it, then perform the framework deletion of the
draft row (which asserts a primary key is present).  A dangling `public`
reference would raise `DoesNotExist` at attribute access; an unsaved
draft fails the framework delete's pk assertion, in both cases after the
mirror marking. -/
def Publishable.delete (o : Obj) (db : DB) : DelOut :=
  match o.public with
  | some mpk =>
    match db.get mpk with
    | none => .exn db
    | some m =>
      let m1 := { m with publish_state := PUBLISH_DELETE }
      let (_, db1) := Publishable.save true m1 db
      match o.pk with
      | none => .exn db1
      | some k => .ok (db1.delRow k)
  | none =>
    match o.pk with
    | none => .exn db
    | some k => .ok (db.delRow k)

/-- The errors `Publishable.publish` can raise (see module comment), plus
`fuelExhausted` marking that the fuel bound was hit before the Python
call tree returned. -/
inductive PubErr where
  | invalidState
  | notPersisted
  | m2mOnUnsaved
  | addUnsaved
  | missingRow
  | noneResult
  | fuelExhausted
  deriving DecidableEq, Repr

/-- Result of one engine step: a value together with the visited set, the
database and the ghost log, or a propagating exception carrying the
database and log at the moment of the raise. -/
inductive StepOut (α : Type) where
  | ok (val : α) (visited : List Nat) (db : DB) (log : List Nat)
  | exn (e : PubErr) (visited : List Nat) (db : DB) (log : List Nat)
  deriving DecidableEq, Repr

/-- Result of `Publishable.publish`: the returned mirror instance
(`none` exactly when a visited-set hit found no existing mirror). -/
abbrev PubOut := StepOut (Option Obj)

/-- Database component of a step result. -/
def StepOut.dbOut : StepOut α → DB
  | .ok _ _ db _ => db
  | .exn _ _ db _ => db

/-- Ghost-log component of a step result. -/
def StepOut.logOut : StepOut α → List Nat
  | .ok _ _ _ lg => lg
  | .exn _ _ _ lg => lg

/-- Whether the step returned normally. -/
def StepOut.isOk : StepOut α → Bool
  | .ok _ _ _ _ => true
  | .exn _ _ _ _ => false

/-- The propagating exception of a step, when there is one. -/
def StepOut.errOf : StepOut α → Option PubErr
  | .ok _ _ _ _ => none
  | .exn e _ _ _ => some e

/-- The returned value of a normally-returning step. -/
def StepOut.retOf : StepOut α → Option α
  | .ok r _ _ _ => some r
  | .exn _ _ _ _ => none

/-- Class defaults used by `self.__class__(is_public=True)`: a fresh
instance carries the model's field defaults, not the draft's values. -/
def defaultVal : FieldVal → FieldVal
  | .scalar _ => .scalar 0
  | .relPlain _ => .relPlain none
  | .relPub _ => .relPub none

/-- The fresh, unsaved mirror instantiated by
`public_version = self.__class__(is_public=True)`. -/
def freshMirror (o : Obj) : Obj :=
  { pk := none, is_public := true, publish_state := PUBLISH_DEFAULT,
    public := none, fields := o.fields.map (fun p => (p.1, defaultVal p.2)) }

/-- Assignment `setattr(public_version, field.name, value)` on the modelled field
list: replace the named entry, appending when absent. -/
def Obj.setField (o : Obj) (name : String) (v : FieldVal) : Obj :=
  { o with fields := setFieldGo name v o.fields }
where
  setFieldGo (name : String) (v : FieldVal) :
      List (String × FieldVal) → List (String × FieldVal)
    | [] => [(name, v)]
    | p :: rest =>
      if p.1 == name then (name, v) :: rest else p :: setFieldGo name v rest

/-- Value of a named field. -/
def Obj.getField (o : Obj) (name : String) : Option FieldVal :=
  (o.fields.find? (fun p => p.1 == name)).map (fun p => p.2)

/-- The regular-field copy loop of `Publishable.publish` (models.py
lines 89-100): skip excluded names; recursively publish a non-null
single reference to a Publishable (passing the shared visited set) and
assign the returned mirror — its pk is what the later save stores —
copy every other value as-is. `pub` is the recursive publish at the
remaining fuel. -/
def copyFields (excl : List String) (pub : Obj → List Nat → DB → List Nat → PubOut) :
    List (String × FieldVal) → Obj → List Nat → DB → List Nat → StepOut Obj
  | [], mir, v, db, lg => .ok mir v db lg
  | (nm, val) :: rest, mir, v, db, lg =>
    if nm ∈ excl then copyFields excl pub rest mir v db lg
    else
      match val with
      | .relPub (some t) =>
        match db.get t with
        | none => .exn .missingRow v db lg
        | some tobj =>
          match pub tobj v db lg with
          | .ok ret v2 db2 lg2 =>
            copyFields excl pub rest (mir.setField nm (.relPub (ret.bind Obj.pk))) v2 db2 lg2
          | .exn e v2 db2 lg2 => .exn e v2 db2 lg2
      | other => copyFields excl pub rest (mir.setField nm other) v db lg

/-- The mapping `public_objs = [p.publish() for p in public_objs]`
(models.py line 122).  Each linked draft is published with a FRESH
visited set — the call passes no `already_published` — and the pk of
each returned mirror is collected.  The surrounding traversal's visited
set is untouched. -/
def mapPublish (pub : Obj → List Nat → DB → List Nat → PubOut) :
    List Nat → List Nat → DB → List Nat → StepOut (List (Option Nat))
  | [], v, db, lg => .ok [] v db lg
  | q :: rest, v, db, lg =>
    match db.get q with
    | none => .exn .missingRow v db lg
    | some qobj =>
      match pub qobj [] db lg with
      | .exn e _ db2 lg2 => .exn e v db2 lg2
      | .ok none _ db2 lg2 => .exn .noneResult v db2 lg2
      | .ok (some mobj) _ db2 lg2 =>
        match mapPublish pub rest v db2 lg2 with
        | .ok pks v3 db3 lg3 => .ok (mobj.pk :: pks) v3 db3 lg3
        | .exn e v3 db3 lg3 => .exn e v3 db3 lg3

/-- Link update `remove(*old_objs)` followed by `add(*public_objs)`: links of the
mirror not among the target pks are removed, target pks not yet present
are added. -/
def m2mUpdate (cur target : List Nat) : List Nat :=
  let kept := cur.filter (fun x => target.contains x)
  kept ++ target.filter (fun x => !kept.contains x)

/-- The many-to-many copy loop of `Publishable.publish` (models.py
lines 109-126); it runs on every call, whatever `publish_state`.
`draftPk` is the draft's pk, `mirPk` the mirror's — requesting the
mirror-side manager raises when the mirror is unsaved (`m2mOnUnsaved`).
When the related model is Publishable every linked draft is published
via `mapPublish`; an unsaved pk among the results makes
`exclude(pk__in=...)` match nothing (SQL null semantics) and `add`
raise (`addUnsaved`). -/
def m2mLoop (excl : List String) (pub : Obj → List Nat → DB → List Nat → PubOut)
    (draftPk : Nat) (mirPk : Option Nat) :
    List (String × Bool) → List Nat → DB → List Nat → StepOut Unit
  | [], v, db, lg => .ok () v db lg
  | (nm, isPub) :: rest, v, db, lg =>
    if nm ∈ excl then m2mLoop excl pub draftPk mirPk rest v db lg
    else
      match mirPk with
      | none => .exn .m2mOnUnsaved v db lg
      | some mk =>
        let cur := db.getLinks draftPk nm
        let step : StepOut (List (Option Nat)) :=
          if isPub then mapPublish pub cur v db lg
          else .ok (cur.map some) v db lg
        match step with
        | .exn e v2 db2 lg2 => .exn e v2 db2 lg2
        | .ok pks v2 db2 lg2 =>
          if pks.any (fun p => p.isNone) then .exn .addUnsaved v2 db2 lg2
          else
            let target := pks.filterMap id
            let db3 := db2.setLinks mk nm (m2mUpdate (db2.getLinks mk nm) target)
            m2mLoop excl pub draftPk mirPk rest v2 db3 lg2

/-- Body of `publish` after the mirror instance `pv` is in hand: the
state-gated regular-field copy with its two saves, then the
unconditional many-to-many copy, then `return public_version`. -/
def publishCore (excl : List String) (sch : List (String × Bool))
    (pub : Obj → List Nat → DB → List Nat → PubOut)
    (o : Obj) (k : Nat) (pv : Obj) (visited : List Nat) (db : DB) (lg : List Nat) : PubOut :=
  if o.publish_state == PUBLISH_CHANGED then
    match copyFields excl pub o.fields pv visited db lg with
    | .exn e v2 db2 lg2 => .exn e v2 db2 lg2
    | .ok pv1 v2 db2 lg2 =>
      let (pv2, db3) := Publishable.save true pv1 db2
      let o1 := { o with public := pv2.pk, publish_state := PUBLISH_DEFAULT }
      let (_, db4) := Publishable.save false o1 db3
      match m2mLoop excl pub k pv2.pk sch v2 db4 lg2 with
      | .exn e v3 db5 lg3 => .exn e v3 db5 lg3
      | .ok _ v3 db5 lg3 => .ok (some pv2) v3 db5 lg3
  else
    match m2mLoop excl pub k pv.pk sch visited db lg with
    | .exn e v3 db5 lg3 => .exn e v3 db5 lg3
    | .ok _ v3 db5 lg3 => .ok (some pv) v3 db5 lg3

/-- Method `Publishable.publish(self, already_published=None)` (models.py
lines 69-128) at one remaining recursion level: the precondition checks,
the visited-set early return, mirror lookup or instantiation, then
`publishCore`.  `pub` is the engine at the next-smaller fuel. -/
def publishSucc (excl : List String) (sch : List (String × Bool))
    (pub : Obj → List Nat → DB → List Nat → PubOut)
    (o : Obj) (visited : List Nat) (db : DB) (lg : List Nat) : PubOut :=
  if o.is_public then .exn .invalidState visited db lg
  else
    match o.pk with
    | none => .exn .notPersisted visited db lg
    | some k =>
      if k ∈ visited then
        match o.public with
        | none => .ok none visited db lg
        | some mpk =>
          match db.get mpk with
          | none => .exn .missingRow visited db lg
          | some m => .ok (some m) visited db lg
      else
        let visited := k :: visited
        let lg := lg ++ [k]
        match o.public with
        | some mpk =>
          match db.get mpk with
          | none => .exn .missingRow visited db lg
          | some pv => publishCore excl sch pub o k pv visited db lg
        | none => publishCore excl sch pub o k (freshMirror o) visited db lg

/-- Out-of-fuel bottom of the engine: the precondition checks still
happen (they precede any recursion in the source); a deeper call tree is
cut off with `fuelExhausted`. -/
def publishZero (o : Obj) (visited : List Nat) (db : DB) (lg : List Nat) : PubOut :=
  if o.is_public then .exn .invalidState visited db lg
  else
    match o.pk with
    | none => .exn .notPersisted visited db lg
    | some _ => .exn .fuelExhausted visited db lg

/-- Method `Publishable.publish`, with the schema of the concrete type supplied
as `excl` (the resolved exclusion set) and `sch` (the many-to-many
fields).  `fuel` bounds the depth of the Python call tree; it is built
with `Nat.rec` so that concrete runs reduce inside the kernel. -/
def Publishable.publish (excl : List String) (sch : List (String × Bool)) :
    Nat → Obj → List Nat → DB → List Nat → PubOut :=
  Nat.rec (motive := fun _ => Obj → List Nat → DB → List Nat → PubOut)
    publishZero
    (fun _ pub => publishSucc excl sch pub)

/-- Base entries `Publishable.PublishMeta.publish_exclude_fields` (models.py
line 45): the base exclusion entries. -/
def publish_exclude_fields : List String :=
  ["id", "is_public", "publish_state", "public"]

/-- Classmethod `PublishMeta.excluded_fields` (models.py lines 47-53): walk the
`__mro__` chain of the concrete type's `PublishMeta`, concatenating
every class's `publish_exclude_fields`.  A concrete type is represented
by its chain of per-class lists, most-derived first; for every subclass
of `Publishable` the chain contains the base entry
`publish_exclude_fields`, since `Publishable.PublishMeta` is in the
`__mro__` of every inheriting `PublishMeta`. -/
def PublishMeta.excluded_fields (mro : List (List String)) : List String :=
  mro.foldr (fun l acc => l ++ acc) []

/-- Modelled from the spec: the engine's non-mutating dry-run walk over
regular publishable single references, shared-set bookkeeping as in
§4.1.  The recursion into a reference happens under the same
state gate as the real copy step.  `walk` is the recursive dry run at
the remaining fuel.  No database value is produced: the mode "computes
the full transitive closure ... without persisting anything" (§4.2). -/
def dryFieldWalk (excl : List String) (walk : Obj → List Nat → List Nat) (db : DB) :
    List (String × FieldVal) → List Nat → List Nat
  | [], acc => acc
  | (nm, val) :: rest, acc =>
    if nm ∈ excl then dryFieldWalk excl walk db rest acc
    else
      match val with
      | .relPub (some t) =>
        match db.get t with
        | some tobj => dryFieldWalk excl walk db rest (walk tobj acc)
        | none => dryFieldWalk excl walk db rest acc
      | _ => dryFieldWalk excl walk db rest acc

/-- Modelled from the spec: the dry-run walk over many-to-many links,
sharing the discovery set across branches (§4.1, design note §9: one
guard per batch call). -/
def dryM2MWalk (excl : List String) (walk : Obj → List Nat → List Nat)
    (db : DB) (k : Nat) : List (String × Bool) → List Nat → List Nat
  | [], acc => acc
  | (nm, isPub) :: rest, acc =>
    if nm ∈ excl then dryM2MWalk excl walk db k rest acc
    else if isPub then
      dryM2MWalk excl walk db k rest
        ((db.getLinks k nm).foldl
          (fun a q =>
            match db.get q with
            | some qobj => walk qobj a
            | none => a) acc)
    else dryM2MWalk excl walk db k rest acc

/-- Modelled from the spec: `publish(dry_run=True, all_published=...)`
as invoked by `publish_selected` (actions.py line 104).  The dry-run
mode of `Publishable.publish` and the `NestedSet` collection are absent
from src (models.py's `publish` accepts neither `dry_run` nor
`all_published`); this definition follows §4.2 step 1 and §4.1 of the
spec: compute the transitive closure of entities that would be
published, with the §4.1 cycle-avoidance bookkeeping over one shared
discovery set, persisting nothing.  The nested structure of the
collection is flattened to the discovery set itself, which is all the
permission phase consumes. -/
def publishDryRun (excl : List String) (sch : List (String × Bool)) :
    Nat → Obj → List Nat → DB → List Nat :=
  Nat.rec (motive := fun _ => Obj → List Nat → DB → List Nat)
    (fun o acc _ =>
      match o.pk with
      | none => acc
      | some k => if k ∈ acc then acc else k :: acc)
    (fun _ walk o acc db =>
      if o.is_public then acc
      else
        match o.pk with
        | none => acc
        | some k =>
          if k ∈ acc then acc
          else
            let acc := k :: acc
            let acc :=
              if o.publish_state == PUBLISH_CHANGED then
                dryFieldWalk excl (fun ob a => walk ob a db) db o.fields acc
              else acc
            dryM2MWalk excl (fun ob a => walk ob a db) db k sch acc)

/-- Modelled from the spec: `Publishable.unpublish(dry_run)` (§4.1),
absent from src though called by `unpublish_selected` (actions.py
lines 156 and 177).  If `draft.public` is unset, a no-op returning
nothing; otherwise the public mirror is returned, with no mutation at
all when `dry_run`.  The non-dry-run deletion of the mirror and
clearing of `draft.public` — delegated by the spec to the persistence
collaborator — is modelled as performing exactly those two writes. -/
def unpublish (o : Obj) (dryRun : Bool) (db : DB) : Option Obj × DB :=
  match o.public with
  | none => (none, db)
  | some mpk =>
    match db.get mpk with
    | none => (none, db)
    | some m =>
      if dryRun then (some m, db)
      else
        let db1 := db.delRow mpk
        let (_, db2) := Publishable.save false { o with public := none } db1
        (some m, db2)

/-- The administrative registry and permission checker consumed by
`publish_selected`: whether the concrete model has a registered admin,
and `has_publish_permission` for the acting request, per entity pk. -/
structure Admin where
  registered : Bool
  has_publish_permission : Nat → Bool

/-- The outcome `publish_selected` hands back to the admin framework:
the confirmation page context, a raised `PermissionDenied`, the success
message after committing, or a propagating engine exception. -/
inductive PSOutcome where
  | confirmation (allPublished : List Nat) (permsNeeded : List Nat)
  | permissionDenied
  | done (count : Nat)
  | engineError (e : PubErr)
  deriving DecidableEq, Repr

/-- The dry-run discovery loop of `publish_selected` (actions.py
lines 102-104): one shared discovery set threaded over the whole
batch. -/
def discoverAll (excl : List String) (sch : List (String × Bool)) (fuel : Nat)
    (batch : List Nat) (db : DB) : List Nat :=
  batch.foldl
    (fun acc k =>
      match db.get k with
      | some o => publishDryRun excl sch fuel o acc db
      | none => acc) []

/-- Helper `_check_permissions` (actions.py lines 81-89): entities of the
discovery set whose model has a registered admin and whose permission
check fails, in discovery-set order. -/
def check_permissions (admin : Admin) (allPublished : List Nat) : List Nat :=
  allPublished.filter (fun k => admin.registered && !(admin.has_publish_permission k))

/-- Modelled from the spec: `queryset.publish()` of the commit phase
(actions.py line 118).  `PublishableManager` in src has no `publish`
method; §4.2 step 4 says the commit performs the real (persisting)
publish over the whole original batch, so each batch draft is published
with the §4.1 engine; an exception aborts the loop. -/
def publishBatch (excl : List String) (sch : List (String × Bool)) (fuel : Nat) :
    List Nat → DB → DB × Option PubErr
  | [], db => (db, none)
  | k :: rest, db =>
    match db.get k with
    | none => publishBatch excl sch fuel rest db
    | some o =>
      match Publishable.publish excl sch fuel o [] db [] with
      | .ok _ _ db2 _ => publishBatch excl sch fuel rest db2
      | .exn e _ db2 _ => (db2, some e)

/-- Action `publish_selected(modeladmin, request, queryset)` (actions.py
lines 97-145).  `post` is `request.POST.get('post')`; the returned log
is the list of entities passed to `modeladmin.log_publication`, in
order.  Phases exactly as in the source: dry-run discovery over the
whole batch, permission collection, then — only on a confirmed
request — either the `PermissionDenied` raise or the logging followed by
the persisting publish; otherwise the confirmation page. -/
def publish_selected (admin : Admin) (excl : List String)
    (sch : List (String × Bool)) (fuel : Nat) (post : Bool)
    (batch : List Nat) (db : DB) : PSOutcome × DB × List Nat :=
  let all := discoverAll excl sch fuel batch db
  let permsNeeded := check_permissions admin all
  if post then
    if !permsNeeded.isEmpty then (.permissionDenied, db, [])
    else if batch.length == 0 then (.confirmation all permsNeeded, db, [])
    else
      match publishBatch excl sch fuel batch db with
      | (db2, none) => (.done batch.length, db2, all)
      | (db2, some e) => (.engineError e, db2, all)
  else (.confirmation all permsNeeded, db, [])

/-! ### Concrete scenarios

Small databases exercising the engine, used by the concrete theorems
below.  `mkDraft` builds a persisted draft row. -/

/-- A persisted draft row. -/
def mkDraft (k : Nat) (st : Nat) (pub : Option Nat) (fs : List (String × FieldVal)) : Obj where
  pk := some k
  is_public := false
  publish_state := st
  public := pub
  fields := fs

/-- Mutual single-reference cycle, first publish: draft 1 and draft 2
reference each other through the `partner` foreign key, both CHANGED,
neither has a mirror yet. -/
def cycleA : Obj := mkDraft 1 1 none [("partner", .relPub (some 2)), ("title", .scalar 10)]

/-- Second draft of the mutual cycle. -/
def cycleB : Obj := mkDraft 2 1 none [("partner", .relPub (some 1)), ("title", .scalar 20)]

/-- Database of the fresh mutual cycle. -/
def cycleDB : DB where
  objs := [cycleA, cycleB]
  links := []
  nextPk := 3

/-- The mutual cycle AFTER a first publish (mirrors 3 and 4 exist) with
both drafts edited again (`publish_state` CHANGED). -/
def cycleDB2 : DB where
  objs :=
    [mkDraft 1 1 (some 4) [("partner", .relPub (some 2)), ("title", .scalar 11)],
     mkDraft 2 1 (some 3) [("partner", .relPub (some 1)), ("title", .scalar 21)],
     { pk := some 3, is_public := true, publish_state := 0, public := none,
       fields := [("partner", .relPub none), ("title", .scalar 20)] },
     { pk := some 4, is_public := true, publish_state := 0, public := none,
       fields := [("partner", .relPub (some 3)), ("title", .scalar 10)] }]
  links := []
  nextPk := 5

/-- Draft 1 of `cycleDB2`: edited again after a first publish, its
mirror is row 4. -/
def cycleA2 : Obj := mkDraft 1 1 (some 4) [("partner", .relPub (some 2)), ("title", .scalar 11)]

/-- Many-to-many diamond: draft 1 links drafts 2 and 3 through the
multi-reference field `rel`, and 2 and 3 both link draft 4. -/
def diamondDB : DB where
  objs :=
    [mkDraft 1 1 none [("title", .scalar 1)], mkDraft 2 1 none [("title", .scalar 2)],
     mkDraft 3 1 none [("title", .scalar 3)], mkDraft 4 1 none [("title", .scalar 4)]]
  links := [(1, "rel", [2, 3]), (2, "rel", [4]), (3, "rel", [4])]
  nextPk := 5

/-- Mutual many-to-many pair: drafts 1 and 2 link each other through
`rel`. -/
def pairDB : DB where
  objs := [mkDraft 1 1 none [("title", .scalar 1)], mkDraft 2 1 none [("title", .scalar 2)]]
  links := [(1, "rel", [2]), (2, "rel", [1])]
  nextPk := 3

/-- Schema with the single publishable many-to-many field `rel`. -/
def schRel : List (String × Bool) := [("rel", true)]

/-- A persisted draft already in sync (`publish_state` DEFAULT) with no
mirror, for a model without many-to-many fields. -/
def plainDefaultDraft : Obj := mkDraft 1 0 none [("title", .scalar 7)]

/-- Database holding only `plainDefaultDraft`. -/
def plainDefaultDB : DB where
  objs := [plainDefaultDraft]
  links := []
  nextPk := 2

/-- Exclusion set of a concrete type that adds `secret` and `log` to the
inherited base entries, as `Page.PublishMeta` adds `log` (models.py
lines 172-173). -/
def secretExcl : List String :=
  PublishMeta.excluded_fields [["secret", "log"], publish_exclude_fields]

/-- A CHANGED draft whose excluded regular field `secret` differs from
its mirror's value. -/
def secretDraft : Obj := mkDraft 1 1 (some 2) [("title", .scalar 5), ("secret", .scalar 99)]

/-- Database for the exclusion scenario: draft 1, its mirror 2, and
many-to-many link sets for the excluded field `log` and the copied
field `rel` on both sides. -/
def secretDB : DB where
  objs := [secretDraft,
    { pk := some 2, is_public := true, publish_state := 0, public := none,
      fields := [("title", .scalar 1), ("secret", .scalar 7)] }]
  links := [(1, "log", [11]), (1, "rel", [12]), (2, "log", [13]), (2, "rel", [14])]
  nextPk := 3

/-- Many-to-many schema of the exclusion scenario: two non-publishable
multi-reference fields, `log` excluded, `rel` not. -/
def secretSch : List (String × Bool) := [("log", false), ("rel", false)]

/-- An in-sync draft (DEFAULT, mirror row 2) whose many-to-many field
`rel` links the in-sync draft 3 (mirror row 4); the mirror's own link
set still holds a stale entry 9. -/
def m2mDraft : Obj := mkDraft 1 0 (some 2) []

/-- Database of the many-to-many convergence scenario. -/
def m2mDB : DB where
  objs := [m2mDraft,
    { pk := some 2, is_public := true, publish_state := 0, public := none, fields := [] },
    mkDraft 3 0 (some 4) [],
    { pk := some 4, is_public := true, publish_state := 0, public := none, fields := [] }]
  links := [(1, "rel", [3]), (2, "rel", [9]), (4, "rel", [])]
  nextPk := 5

/-! ### Theorems -/

/-- One step of the fuel recursion of `Publishable.publish`. -/
theorem publish_unfold_succ (excl : List String) (sch : List (String × Bool))
    (f : Nat) (o : Obj) (v : List Nat) (db : DB) (lg : List Nat) :
    Publishable.publish excl sch (f + 1) o v db lg =
      publishSucc excl sch (Publishable.publish excl sch f) o v db lg := rfl

/-- The fuel-zero base of `Publishable.publish`. -/
theorem publish_unfold_zero (excl : List String) (sch : List (String × Bool))
    (o : Obj) (v : List Nat) (db : DB) (lg : List Nat) :
    Publishable.publish excl sch 0 o v db lg = publishZero o v db lg := rfl

/-- C7: `publish` fails with the `InvalidState` error on an entity whose
`is_public` is true, and with the `NotPersisted` error on a draft whose
pk is unset; in both cases immediately — the exception carries the
untouched database, visited set and log. -/
theorem publish_precondition_errors (excl : List String) (sch : List (String × Bool))
    (fuel : Nat) (o : Obj) (visited : List Nat) (db : DB) (lg : List Nat) :
    (o.is_public = true →
      Publishable.publish excl sch fuel o visited db lg = .exn .invalidState visited db lg) ∧
    (o.is_public = false → o.pk = none →
      Publishable.publish excl sch fuel o visited db lg = .exn .notPersisted visited db lg) := by
  cases fuel with
  | zero =>
    refine ⟨fun h => ?_, fun h hp => ?_⟩ <;>
      simp [publish_unfold_zero, publishZero, h]
    simp [hp]
  | succ f =>
    refine ⟨fun h => ?_, fun h hp => ?_⟩ <;>
      simp [publish_unfold_succ, publishSucc, h]
    simp [hp]

/-- Witness for C7: a public entity and an unsaved draft, both rejected
with the database untouched. -/
theorem publish_precondition_errors_witness :
    Publishable.publish publish_exclude_fields [] 3
        { pk := some 9, is_public := true, publish_state := 0, public := none, fields := [] }
        [] cycleDB [] = .exn .invalidState [] cycleDB [] ∧
    Publishable.publish publish_exclude_fields [] 3
        { pk := none, is_public := false, publish_state := 1, public := none, fields := [] }
        [] cycleDB [] = .exn .notPersisted [] cycleDB [] :=
  ⟨(publish_precondition_errors publish_exclude_fields [] 3
      { pk := some 9, is_public := true, publish_state := 0, public := none, fields := [] }
      [] cycleDB []).1 rfl,
   (publish_precondition_errors publish_exclude_fields [] 3
      { pk := none, is_public := false, publish_state := 1, public := none, fields := [] }
      [] cycleDB []).2 rfl rfl⟩

/-- C10: `Publishable.save` on an entity whose `is_public` is true never
modifies `publish_state`, whatever `mark_changed`; consequently a save
yields an entity that is public with state CHANGED only when the state
was CHANGED before the save. -/
theorem save_public_preserves_state (mc : Bool) (o : Obj) (db : DB) :
    (o.is_public = true →
      ((Publishable.save mc o db).1).publish_state = o.publish_state) ∧
    (((Publishable.save mc o db).1).is_public = true →
      ((Publishable.save mc o db).1).publish_state = PUBLISH_CHANGED →
      o.publish_state = PUBLISH_CHANGED) := by
  constructor
  · intro h
    cases o with
    | mk pk ip st pub fs =>
      simp at h
      subst h
      cases pk <;> simp [Publishable.save, rawSave]
  · intro h1 h2
    cases o with
    | mk pk ip st pub fs =>
      cases ip with
      | true => cases pk <;> simpa [Publishable.save, rawSave] using h2
      | false =>
        cases mc <;> cases pk <;> simp [Publishable.save, rawSave] at h1

/-- Witness for C10: saving a public mirror in DELETE state with
`mark_changed` left at its default keeps the state. -/
theorem save_public_preserves_state_witness :
    (((Publishable.save true
        { pk := some 3, is_public := true, publish_state := 2, public := none, fields := [] }
        cycleDB).1).publish_state = 2) ∧
    (((Publishable.save true
        { pk := some 3, is_public := true, publish_state := 1, public := none, fields := [] }
        cycleDB).1).is_public = true →
      ((Publishable.save true
        { pk := some 3, is_public := true, publish_state := 1, public := none, fields := [] }
        cycleDB).1).publish_state = PUBLISH_CHANGED →
      (1 : Nat) = PUBLISH_CHANGED) :=
  ⟨(save_public_preserves_state true
      { pk := some 3, is_public := true, publish_state := 2, public := none, fields := [] }
      cycleDB).1 rfl,
   (save_public_preserves_state true
      { pk := some 3, is_public := true, publish_state := 1, public := none, fields := [] }
      cycleDB).2⟩

/-- A fetched row carries the primary key it was fetched by. -/
theorem DB.get_pk {db : DB} {k : Nat} {o : Obj} (h : db.get k = some o) :
    o.pk = some k := by
  simp only [DB.get] at h
  have hp := List.find?_some h
  simpa using hp

/-- Lookup `find?` misses every row whose pk was filtered away. -/
theorem find?_filter_self (l : List Obj) (k : Nat) :
    (l.filter (fun x => !(x.pk == some k))).find? (fun x => x.pk == some k) = none := by
  induction l with
  | nil => rfl
  | cons a t ih =>
    rw [List.filter_cons]
    by_cases h : a.pk = some k
    · rw [if_neg (by simp [h])]
      exact ih
    · rw [if_pos (by simpa using h), List.find?_cons_of_neg _ (by simpa using h)]
      exact ih

/-- Filtering out one pk leaves lookups of a different pk unchanged. -/
theorem find?_filter_ne (l : List Obj) (k k2 : Nat) (h : k ≠ k2) :
    (l.filter (fun x => !(x.pk == some k2))).find? (fun x => x.pk == some k) =
      l.find? (fun x => x.pk == some k) := by
  induction l with
  | nil => rfl
  | cons a t ih =>
    rw [List.filter_cons]
    by_cases h2 : a.pk = some k2
    · have h3 : ¬ a.pk = some k := by simp [h2, Ne.symm h]
      rw [if_neg (by simp [h2]), List.find?_cons_of_neg _ (by simpa using h3)]
      exact ih
    · by_cases h3 : a.pk = some k
      · rw [if_pos (by simpa using h2), List.find?_cons_of_pos _ (by simpa using h3),
          List.find?_cons_of_pos _ (by simpa using h3)]
      · rw [if_pos (by simpa using h2), List.find?_cons_of_neg _ (by simpa using h3),
          List.find?_cons_of_neg _ (by simpa using h3)]
        exact ih

/-- Replacing the row that a successful lookup found makes the lookup
return the replacement. -/
theorem find?_map_replace (l : List Obj) (o r : Obj) (k : Nat) (hpk : o.pk = some k)
    (h : l.find? (fun x => x.pk == some k) = some r) :
    (l.map (fun x => if x.pk == o.pk then o else x)).find? (fun x => x.pk == some k) =
      some o := by
  induction l with
  | nil => simp [List.find?] at h
  | cons a t ih =>
    rw [List.map_cons]
    by_cases h2 : a.pk = some k
    · rw [if_pos (by rw [hpk]; simpa using h2),
        List.find?_cons_of_pos _ (by simpa using hpk)]
    · rw [List.find?_cons_of_neg _ (by simpa using h2)] at h
      rw [if_neg (by rw [hpk]; simpa using h2),
        List.find?_cons_of_neg _ (by simpa using h2)]
      exact ih h

/-- Looking up a pk after `delRow` of that pk fails. -/
theorem DB.get_delRow_self (db : DB) (k : Nat) : (db.delRow k).get k = none := by
  simp only [DB.get, DB.delRow]
  exact find?_filter_self db.objs k

/-- Deleting via `delRow` of another pk leaves a lookup unchanged. -/
theorem DB.get_delRow_ne (db : DB) (k k2 : Nat) (h : k ≠ k2) :
    (db.delRow k2).get k = db.get k := by
  simp only [DB.get, DB.delRow]
  exact find?_filter_ne db.objs k k2 h

/-- Writing via `putRow` of a row that was already present updates what the lookup
returns. -/
theorem DB.get_putRow_self {db : DB} {k : Nat} {o r : Obj} (hpk : o.pk = some k)
    (h : db.get k = some r) : (db.putRow o).get k = some o := by
  simp only [DB.get, DB.putRow] at h ⊢
  have hmem := List.mem_of_find?_eq_some h
  have hp := List.find?_some h
  have hany : db.objs.any (fun x => x.pk == o.pk) = true := by
    rw [List.any_eq_true]
    exact ⟨r, hmem, by rw [hpk]; exact hp⟩
  rw [if_pos hany]
  exact find?_map_replace db.objs o r k hpk h

/-- C8: deleting a draft whose `public` field is set first marks the
mirror `PUBLISH_DELETE` and persists it, then removes the draft row;
the mirror row survives the deletion. -/
theorem delete_marks_mirror (o m : Obj) (db : DB) (k mpk : Nat)
    (hk : o.pk = some k) (hp : o.public = some mpk) (hm : db.get mpk = some m)
    (hmp : m.is_public = true) (hne : mpk ≠ k) :
    ∃ db2, Publishable.delete o db = .ok db2 ∧
      db2.get mpk = some { m with publish_state := PUBLISH_DELETE } ∧
      db2.get k = none := by
  have hmpk : m.pk = some mpk := DB.get_pk hm
  refine ⟨((db.putRow { m with publish_state := PUBLISH_DELETE }).delRow k), ?_, ?_, ?_⟩
  · simp only [Publishable.delete, hp, hm, hk, Publishable.save, rawSave, hmp]
    simp [hmpk]
  · rw [DB.get_delRow_ne _ _ _ hne]
    exact DB.get_putRow_self (by simpa using hmpk) hm
  · exact DB.get_delRow_self _ k

/-- Witness for C8: deleting draft 1 of the post-publish cycle database
leaves mirror 4 marked DELETE and removes row 1. -/
theorem delete_marks_mirror_witness :
    ∃ db2,
      Publishable.delete
        (mkDraft 1 1 (some 4) [("partner", .relPub (some 2)), ("title", .scalar 11)])
        cycleDB2 = .ok db2 ∧
      db2.get 4 = some
        { pk := some 4, is_public := true, publish_state := PUBLISH_DELETE, public := none,
          fields := [("partner", .relPub (some 3)), ("title", .scalar 10)] } ∧
      db2.get 1 = none :=
  delete_marks_mirror
    (mkDraft 1 1 (some 4) [("partner", .relPub (some 2)), ("title", .scalar 11)])
    { pk := some 4, is_public := true, publish_state := 0, public := none,
      fields := [("partner", .relPub (some 3)), ("title", .scalar 10)] }
    cycleDB2 1 4 rfl rfl (by decide) rfl (by decide)

/-- C1 counterexample: on the FIRST publish of a fresh mutual
single-reference cycle the claim fails — publishing draft 1 of
`cycleDB` terminates, A's mirror (row 4) references B's mirror (row 3),
but B's mirror's back-reference is `none`, not A's mirror: when the
recursion re-reached draft 1 through the cycle, `already_published`
returned `self.public`, which was still unset because draft 1 assigns
its mirror only after its field loop finishes (models.py lines 79-80
versus 105-107). -/
theorem publish_cycle_backref_counterexample :
    ((Publishable.publish publish_exclude_fields [] 5 cycleA [] cycleDB []).dbOut.get 4).map
        (fun m => m.getField "partner") = some (some (.relPub (some 3))) ∧
    ((Publishable.publish publish_exclude_fields [] 5 cycleA [] cycleDB []).dbOut.get 3).map
        (fun m => m.getField "partner") = some (some (.relPub none)) ∧
    ((Publishable.publish publish_exclude_fields [] 5 cycleA [] cycleDB []).dbOut.get 1).map
        (fun d => d.public) = some (some 4) ∧
    ((Publishable.publish publish_exclude_fields [] 5 cycleA [] cycleDB []).dbOut.get 2).map
        (fun d => d.public) = some (some 3) := by
  refine ⟨?_, ?_, ?_, ?_⟩ <;> decide

/-- C1 (amended): publishing a mutual single-reference cycle with a
fresh visited set terminates and runs each entity's publish logic
exactly once; the first-visited draft's mirror references the other
mirror, while the other mirror's back-reference holds the mirror the
first draft had ON ENTRY — `none` on a first publish, and the correct
mirror on a republish when both mirrors already exist.  In general a
draft already in the visited set immediately yields the public mirror
recorded for it at that moment (possibly `none`), without reprocessing:
database, visited set and log are returned untouched. -/
theorem publish_cycle_termination :
    (∀ (excl : List String) (sch : List (String × Bool)) (f k : Nat) (o : Obj)
        (visited : List Nat) (db : DB) (lg : List Nat),
      o.is_public = false → o.pk = some k → k ∈ visited →
      (o.public = none →
        Publishable.publish excl sch (f + 1) o visited db lg = .ok none visited db lg) ∧
      (∀ mpk m, o.public = some mpk → db.get mpk = some m →
        Publishable.publish excl sch (f + 1) o visited db lg = .ok (some m) visited db lg)) ∧
    ((Publishable.publish publish_exclude_fields [] 5 cycleA [] cycleDB []).logOut = [1, 2] ∧
      (Publishable.publish publish_exclude_fields [] 5 cycleA [] cycleDB []).isOk = true ∧
      ((Publishable.publish publish_exclude_fields [] 5 cycleA [] cycleDB []).dbOut.get 4).map
        (fun m => m.getField "partner") = some (some (.relPub (some 3))) ∧
      ((Publishable.publish publish_exclude_fields [] 5 cycleA [] cycleDB []).dbOut.get 3).map
        (fun m => m.getField "partner") = some (some (.relPub none))) ∧
    ((Publishable.publish publish_exclude_fields [] 5 cycleA2 [] cycleDB2 []).logOut = [1, 2] ∧
      ((Publishable.publish publish_exclude_fields [] 5 cycleA2 [] cycleDB2 []).dbOut.get 4).map
        (fun m => m.getField "partner") = some (some (.relPub (some 3))) ∧
      ((Publishable.publish publish_exclude_fields [] 5 cycleA2 [] cycleDB2 []).dbOut.get 3).map
        (fun m => m.getField "partner") = some (some (.relPub (some 4)))) := by
  refine ⟨?_, by refine ⟨?_, ?_, ?_, ?_⟩ <;> decide, by refine ⟨?_, ?_, ?_⟩ <;> decide⟩
  intro excl sch f k o visited db lg hip hpk hv
  constructor
  · intro hpub
    simp [publish_unfold_succ, publishSucc, hip, hpk, hv, hpub]
  · intro mpk m hpub hm
    simp [publish_unfold_succ, publishSucc, hip, hpk, hv, hpub, hm]

/-- Witness for C1: the visited-set early return applied to draft 1 of
the cycle database (no mirror yet) and to the republished draft 1 of
`cycleDB2` (mirror row 4), together with the concrete cycle run. -/
theorem publish_cycle_termination_witness :
    Publishable.publish publish_exclude_fields [] 4 cycleA [1, 2] cycleDB [] =
      .ok none [1, 2] cycleDB [] ∧
    Publishable.publish publish_exclude_fields [] 4 cycleA2 [1] cycleDB2 [] =
      .ok (some { pk := some 4, is_public := true, publish_state := 0, public := none, fields := [("partner", .relPub (some 3)), ("title", .scalar 10)] }) [1] cycleDB2 [] ∧
    (Publishable.publish publish_exclude_fields [] 5 cycleA [] cycleDB []).logOut = [1, 2] :=
  ⟨(publish_cycle_termination.1 publish_exclude_fields [] 3 1 cycleA [1, 2] cycleDB []
      rfl rfl (by decide)).1 rfl,
   (publish_cycle_termination.1 publish_exclude_fields [] 3 1 cycleA2 [1] cycleDB2 []
      rfl rfl (by decide)).2 4
      { pk := some 4, is_public := true, publish_state := 0, public := none, fields := [("partner", .relPub (some 3)), ("title", .scalar 10)] } rfl (by decide),
   publish_cycle_termination.2.1.1⟩

/-- C2: the visited set is NOT shared with the recursive publishes
triggered by many-to-many fields — `public_objs = [p.publish() for p in
public_objs]` (models.py line 122) passes no `already_published`, so
each such recursion starts a fresh set.  In the many-to-many diamond
(1 links 2 and 3, both link 4) the publish logic of draft 4 runs TWICE
(the ghost log lists pk 4 twice), violating processed-at-most-once;
draft 4 still ends with exactly one mirror (row 7), referenced from
both mirrors 6 and 8.  On the mutual many-to-many pair the recursion
never bottoms out: 30 fuel levels are exhausted where the shared-set
discipline would need three. -/
theorem m2m_fresh_visited_code_bug :
    (Publishable.publish publish_exclude_fields schRel 9
        (mkDraft 1 1 none [("title", .scalar 1)]) [] diamondDB []).logOut = [1, 2, 4, 3, 4] ∧
    (Publishable.publish publish_exclude_fields schRel 9
        (mkDraft 1 1 none [("title", .scalar 1)]) [] diamondDB []).logOut.count 4 = 2 ∧
    ((Publishable.publish publish_exclude_fields schRel 9
        (mkDraft 1 1 none [("title", .scalar 1)]) [] diamondDB []).dbOut.get 4).map
        (fun d => d.public) = some (some 7) ∧
    (Publishable.publish publish_exclude_fields schRel 9
        (mkDraft 1 1 none [("title", .scalar 1)]) [] diamondDB []).dbOut.getLinks 6 "rel" = [7] ∧
    (Publishable.publish publish_exclude_fields schRel 9
        (mkDraft 1 1 none [("title", .scalar 1)]) [] diamondDB []).dbOut.getLinks 8 "rel" = [7] ∧
    (Publishable.publish publish_exclude_fields schRel 30
        (mkDraft 1 1 none [("title", .scalar 1)]) [] pairDB []).errOf = some .fuelExhausted := by
  refine ⟨?_, ?_, ?_, ?_, ?_, ?_⟩ <;> decide

/-- Replacing rows of a different pk leaves a lookup unchanged. -/
theorem find?_map_replace_ne (l : List Obj) (o : Obj) (k : Nat) (h : (o.pk == some k) = false) :
    (l.map (fun x => if x.pk == o.pk then o else x)).find? (fun x => x.pk == some k) =
      l.find? (fun x => x.pk == some k) := by
  induction l with
  | nil => rfl
  | cons a t ih =>
    rw [List.map_cons]
    by_cases h2 : a.pk = o.pk
    · have h3 : (a.pk == some k) = false := by rw [h2]; exact h
      rw [if_pos (by simpa using h2), List.find?_cons_of_neg _ (by simp [h]),
        List.find?_cons_of_neg _ (by simp [h3])]
      exact ih
    · by_cases h3 : a.pk = some k
      · rw [if_neg (by simpa using h2), List.find?_cons_of_pos _ (by simpa using h3),
          List.find?_cons_of_pos _ (by simpa using h3)]
      · rw [if_neg (by simpa using h2), List.find?_cons_of_neg _ (by simpa using h3),
          List.find?_cons_of_neg _ (by simpa using h3)]
        exact ih

/-- After `putRow`, looking up the row's own pk returns the row. -/
theorem DB.get_putRow_pk {db : DB} {o : Obj} {k : Nat} (hpk : o.pk = some k) :
    (db.putRow o).get k = some o := by
  simp only [DB.get, DB.putRow]
  by_cases h : db.objs.any (fun r => r.pk == o.pk) = true
  · rw [if_pos h]
    rw [List.any_eq_true] at h
    obtain ⟨r, hmem, hr⟩ := h
    have hr2 : (r.pk == some k) = true := by rw [← hpk]; exact hr
    have hs : (db.objs.find? (fun x => x.pk == some k)).isSome :=
      List.find?_isSome.mpr ⟨r, hmem, hr2⟩
    obtain ⟨r2, hfind⟩ := Option.isSome_iff_exists.mp hs
    exact find?_map_replace db.objs o r2 k hpk hfind
  · rw [if_neg h]
    have hnone : db.objs.find? (fun x => x.pk == some k) = none := by
      rw [List.find?_eq_none]
      intro x hx hpx
      exact h (List.any_eq_true.mpr ⟨x, hx, by rw [hpk]; exact hpx⟩)
    rw [List.find?_append, hnone, Option.none_or,
      List.find?_cons_of_pos _ (by simpa using hpk)]

/-- Writing via `putRow` of a row with a different pk leaves a lookup unchanged. -/
theorem DB.get_putRow_ne {db : DB} {o : Obj} {k j : Nat} (hpk : o.pk = some j)
    (h : j ≠ k) : (db.putRow o).get k = db.get k := by
  have hb : (o.pk == some k) = false := by simp [hpk, h]
  simp only [DB.get, DB.putRow]
  by_cases h2 : db.objs.any (fun r => r.pk == o.pk) = true
  · rw [if_pos h2]
    exact find?_map_replace_ne db.objs o k hb
  · rw [if_neg h2, List.find?_append]
    rw [List.find?_cons_of_neg _ (by simp [hb])]
    simp

/-- The regular-field copy on a field list without non-null publishable
single references performs no recursion: the database, visited set and
log pass through unchanged, and the mirror keeps its identity fields. -/
theorem copyFields_no_refs (excl : List String)
    (pub : Obj → List Nat → DB → List Nat → PubOut)
    (fields : List (String × FieldVal)) :
    ∀ (mir : Obj) (v : List Nat) (db : DB) (lg : List Nat),
    (∀ p ∈ fields, ∀ t, p.2 ≠ FieldVal.relPub (some t)) →
    ∃ mir2, copyFields excl pub fields mir v db lg = .ok mir2 v db lg ∧
      mir2.pk = mir.pk ∧ mir2.is_public = mir.is_public ∧
      mir2.publish_state = mir.publish_state := by
  induction fields with
  | nil => intro mir v db lg _; exact ⟨mir, rfl, rfl, rfl, rfl⟩
  | cons p rest ih =>
    intro mir v db lg h
    obtain ⟨nm, val⟩ := p
    have hrest : ∀ q ∈ rest, ∀ t, q.2 ≠ FieldVal.relPub (some t) :=
      fun q hq => h q (List.mem_cons_of_mem _ hq)
    by_cases hex : nm ∈ excl
    · rw [show copyFields excl pub ((nm, val) :: rest) mir v db lg =
          copyFields excl pub rest mir v db lg by simp [copyFields, hex]]
      exact ih mir v db lg hrest
    · have hset : ∀ w, (mir.setField nm w).pk = mir.pk ∧
          (mir.setField nm w).is_public = mir.is_public ∧
          (mir.setField nm w).publish_state = mir.publish_state :=
        fun w => ⟨rfl, rfl, rfl⟩
      match val, h (nm, val) (List.mem_cons_self _ _) with
      | .scalar x, _ =>
        obtain ⟨m2, hm2, e1, e2, e3⟩ := ih (mir.setField nm (.scalar x)) v db lg hrest
        exact ⟨m2, by rw [show copyFields excl pub ((nm, .scalar x) :: rest) mir v db lg =
          copyFields excl pub rest (mir.setField nm (.scalar x)) v db lg by
            simp [copyFields, hex]]; exact hm2, e1, e2, e3⟩
      | .relPlain t, _ =>
        obtain ⟨m2, hm2, e1, e2, e3⟩ := ih (mir.setField nm (.relPlain t)) v db lg hrest
        exact ⟨m2, by rw [show copyFields excl pub ((nm, .relPlain t) :: rest) mir v db lg =
          copyFields excl pub rest (mir.setField nm (.relPlain t)) v db lg by
            simp [copyFields, hex]]; exact hm2, e1, e2, e3⟩
      | .relPub none, _ =>
        obtain ⟨m2, hm2, e1, e2, e3⟩ := ih (mir.setField nm (.relPub none)) v db lg hrest
        exact ⟨m2, by rw [show copyFields excl pub ((nm, .relPub none) :: rest) mir v db lg =
          copyFields excl pub rest (mir.setField nm (.relPub none)) v db lg by
            simp [copyFields, hex]]; exact hm2, e1, e2, e3⟩
      | .relPub (some t), hcontra => exact absurd rfl (hcontra t)

/-- C4 counterexample: a persisted draft already at `publish_state`
DEFAULT with no mirror.  `publish` returns a freshly instantiated no-op
mirror whose pk is UNSET, and the database comes back unchanged — the
mirror was never persisted, contradicting "persisted before being
returned" (`public_version.save()` only runs inside the
`publish_state == CHANGED` branch, models.py line 104). -/
theorem publish_noop_mirror_unsaved_counterexample :
    (Publishable.publish publish_exclude_fields [] 5 plainDefaultDraft [] plainDefaultDB []).retOf
      = some (some { pk := none, is_public := true, publish_state := 0, public := none, fields := [("title", .scalar 0)] }) ∧
    (Publishable.publish publish_exclude_fields [] 5 plainDefaultDraft [] plainDefaultDB []).dbOut
      = plainDefaultDB := by
  exact ⟨by decide, by decide⟩

/-- C4 (amended): for a persisted draft, `publish` returns the existing
mirror when one is set — untouched (and the database untouched) when
the state is DEFAULT, updated and persisted when the state is CHANGED —
but when the state is DEFAULT and no mirror exists, the freshly created
no-op mirror is returned UNPERSISTED: it has no primary key and the
database is unchanged.  (Stated for models without many-to-many fields
and, in the CHANGED case, without publishable single references.) -/
theorem publish_returns_mirror :
    (∀ (excl : List String) (f k mpk : Nat) (d m : Obj) (db : DB),
      d.is_public = false → d.pk = some k → d.publish_state = PUBLISH_DEFAULT →
      d.public = some mpk → db.get mpk = some m →
      Publishable.publish excl [] (f + 1) d [] db [] = .ok (some m) [k] db [k]) ∧
    (∀ (excl : List String) (f k mpk : Nat) (d m : Obj) (db : DB),
      d.is_public = false → d.pk = some k → d.publish_state = PUBLISH_CHANGED →
      d.public = some mpk → db.get mpk = some m → m.is_public = true → k ≠ mpk →
      (∀ p ∈ d.fields, ∀ t, p.2 ≠ FieldVal.relPub (some t)) →
      ∃ pv2 db2,
        Publishable.publish excl [] (f + 1) d [] db [] = .ok (some pv2) [k] db2 [k] ∧
        pv2.pk = some mpk ∧ db2.get mpk = some pv2 ∧
        db2.get k = some { d with public := some mpk, publish_state := PUBLISH_DEFAULT }) ∧
    (∀ (excl : List String) (f k : Nat) (d : Obj) (db : DB),
      d.is_public = false → d.pk = some k → d.publish_state = PUBLISH_DEFAULT →
      d.public = none →
      Publishable.publish excl [] (f + 1) d [] db [] = .ok (some (freshMirror d)) [k] db [k] ∧
      (freshMirror d).pk = none) := by
  refine ⟨?_, ?_, ?_⟩
  · intro excl f k mpk d m db hip hpk hst hpub hm
    simp [publish_unfold_succ, publishSucc, hip, hpk, hpub, hm, publishCore, hst,
      PUBLISH_DEFAULT, PUBLISH_CHANGED, m2mLoop]
  · intro excl f k mpk d m db hip hpk hst hpub hm hmip hne hrefs
    have hmpk : m.pk = some mpk := DB.get_pk hm
    obtain ⟨pv1, hcf, e1, e2, e3⟩ :=
      copyFields_no_refs excl (Publishable.publish excl [] f) d.fields m [k] db [k] hrefs
    have hpv1pk : pv1.pk = some mpk := e1.trans hmpk
    have hpv1ip : pv1.is_public = true := e2.trans hmip
    refine ⟨pv1, (db.putRow pv1).putRow
      { d with public := some mpk, publish_state := PUBLISH_DEFAULT }, ?_, hpv1pk, ?_, ?_⟩
    · rw [publish_unfold_succ]
      simp [publishSucc, hip, hpk, hpub, hm, publishCore, hst, hcf, Publishable.save,
        rawSave, hpv1ip, hpv1pk, m2mLoop]
    · rw [DB.get_putRow_ne (by simp [hpk]) hne]
      exact DB.get_putRow_pk hpv1pk
    · exact DB.get_putRow_pk (by simp [hpk])
  · intro excl f k d db hip hpk hst hpub
    refine ⟨?_, rfl⟩
    simp [publish_unfold_succ, publishSucc, hip, hpk, hpub, publishCore, hst,
      PUBLISH_DEFAULT, PUBLISH_CHANGED, m2mLoop, freshMirror]

/-- Witness for C4: a DEFAULT draft with mirror row 4 gets the mirror
back untouched; a CHANGED draft persists the updated mirror; a DEFAULT
draft without a mirror gets an unpersisted fresh mirror. -/
theorem publish_returns_mirror_witness :
    (Publishable.publish publish_exclude_fields [] 4
        (mkDraft 1 0 (some 4) [("title", .scalar 11)]) [] cycleDB2 [] =
      .ok (some { pk := some 4, is_public := true, publish_state := 0, public := none, fields := [("partner", .relPub (some 3)), ("title", .scalar 10)] }) [1] cycleDB2 [1]) ∧
    (∃ pv2 db2,
      Publishable.publish publish_exclude_fields [] 4
          (mkDraft 1 1 (some 4) [("title", .scalar 11)]) [] cycleDB2 [] =
        .ok (some pv2) [1] db2 [1] ∧ pv2.pk = some 4 ∧ db2.get 4 = some pv2 ∧
        db2.get 1 = some { mkDraft 1 1 (some 4) [("title", .scalar 11)] with
          public := some 4, publish_state := PUBLISH_DEFAULT }) ∧
    ((Publishable.publish publish_exclude_fields [] 4 plainDefaultDraft [] plainDefaultDB [] =
        .ok (some (freshMirror plainDefaultDraft)) [1] plainDefaultDB [1]) ∧
      (freshMirror plainDefaultDraft).pk = none) :=
  ⟨publish_returns_mirror.1 publish_exclude_fields 3 1 4
      (mkDraft 1 0 (some 4) [("title", .scalar 11)])
      { pk := some 4, is_public := true, publish_state := 0, public := none, fields := [("partner", .relPub (some 3)), ("title", .scalar 10)] }
      cycleDB2 rfl rfl rfl rfl (by decide),
   publish_returns_mirror.2.1 publish_exclude_fields 3 1 4
      (mkDraft 1 1 (some 4) [("title", .scalar 11)])
      { pk := some 4, is_public := true, publish_state := 0, public := none, fields := [("partner", .relPub (some 3)), ("title", .scalar 10)] }
      cycleDB2 rfl rfl rfl rfl (by decide) rfl (by decide)
      (by rintro p hp t h
          rcases List.mem_singleton.mp hp with rfl
          exact FieldVal.noConfusion h),
   publish_returns_mirror.2.2 publish_exclude_fields 3 1 plainDefaultDraft plainDefaultDB
      rfl rfl rfl rfl⟩

/-- C3: the orchestrator's dry-run discovery phase never persists — an
unconfirmed `publish_selected` call returns the discovery set and the
collected permission failures with the database bit-for-bit unchanged
and nothing logged; `unpublish(dry_run=True)` returns nothing when
`draft.public` is unset and the existing mirror otherwise, in both
cases without mutating the database. -/
theorem dry_run_never_persists :
    (∀ (admin : Admin) (excl : List String) (sch : List (String × Bool))
        (fuel : Nat) (batch : List Nat) (db : DB),
      publish_selected admin excl sch fuel false batch db =
        (.confirmation (discoverAll excl sch fuel batch db)
          (check_permissions admin (discoverAll excl sch fuel batch db)), db, [])) ∧
    (∀ (o : Obj) (db : DB), o.public = none → unpublish o true db = (none, db)) ∧
    (∀ (o : Obj) (db : DB) (mpk : Nat) (m : Obj),
      o.public = some mpk → db.get mpk = some m → unpublish o true db = (some m, db)) := by
  refine ⟨fun admin excl sch fuel batch db => rfl, ?_, ?_⟩
  · intro o db hpub
    simp [unpublish, hpub]
  · intro o db mpk m hpub hm
    simp [unpublish, hpub, hm]

/-- Witness for C3: an unconfirmed batch over the cycle database leaves
it unchanged, and dry-run unpublish behaves per the two cases. -/
theorem dry_run_never_persists_witness :
    publish_selected { registered := true, has_publish_permission := fun _ => true }
        publish_exclude_fields [] 5 false [1] cycleDB =
      (.confirmation (discoverAll publish_exclude_fields [] 5 [1] cycleDB)
        (check_permissions { registered := true, has_publish_permission := fun _ => true }
          (discoverAll publish_exclude_fields [] 5 [1] cycleDB)), cycleDB, []) ∧
    unpublish cycleA true cycleDB = (none, cycleDB) ∧
    unpublish cycleA2 true cycleDB2 =
      (some { pk := some 4, is_public := true, publish_state := 0, public := none, fields := [("partner", .relPub (some 3)), ("title", .scalar 10)] }, cycleDB2) :=
  ⟨dry_run_never_persists.1 { registered := true, has_publish_permission := fun _ => true }
      publish_exclude_fields [] 5 [1] cycleDB,
   dry_run_never_persists.2.1 cycleA cycleDB rfl,
   dry_run_never_persists.2.2 cycleA2 cycleDB2 4
      { pk := some 4, is_public := true, publish_state := 0, public := none, fields := [("partner", .relPub (some 3)), ("title", .scalar 10)] }
      rfl (by decide)⟩

/-- C6: permission failures never raise during discovery/preview — the
unconfirmed call returns a confirmation context with the failures
collected and the database unchanged — and on a confirmed request any
collected failure makes `publish_selected` fail with `PermissionDenied`
before anything is logged or published: the whole batch is rejected
with the database bit-for-bit unchanged and the publication log
empty. -/
theorem publish_selected_batch_atomicity :
    (∀ (admin : Admin) (excl : List String) (sch : List (String × Bool))
        (fuel : Nat) (batch : List Nat) (db : DB) (p : Nat),
      p ∈ discoverAll excl sch fuel batch db → admin.registered = true →
      admin.has_publish_permission p = false →
      publish_selected admin excl sch fuel true batch db = (.permissionDenied, db, [])) ∧
    (∀ (admin : Admin) (excl : List String) (sch : List (String × Bool))
        (fuel : Nat) (batch : List Nat) (db : DB),
      (publish_selected admin excl sch fuel false batch db).1 ≠ .permissionDenied ∧
      (publish_selected admin excl sch fuel false batch db).2.1 = db ∧
      (publish_selected admin excl sch fuel false batch db).2.2 = []) := by
  constructor
  · intro admin excl sch fuel batch db p hp hreg hperm
    have hmem : p ∈ check_permissions admin (discoverAll excl sch fuel batch db) :=
      List.mem_filter.mpr ⟨hp, by simp [hreg, hperm]⟩
    have hne : (check_permissions admin (discoverAll excl sch fuel batch db)).isEmpty = false := by
      cases hcp : check_permissions admin (discoverAll excl sch fuel batch db) with
      | nil => rw [hcp] at hmem; exact absurd hmem (List.not_mem_nil p)
      | cons a t => rfl
    simp [publish_selected, hne]
  · intro admin excl sch fuel batch db
    exact ⟨by simp [publish_selected], rfl, rfl⟩

/-- Witness for C6: draft 2 of the cycle is discovered from batch `[1]`
and fails its permission check, so the confirmed action is rejected
with the database untouched; the unconfirmed call never raises. -/
theorem publish_selected_batch_atomicity_witness :
    publish_selected { registered := true, has_publish_permission := fun k => !(k == 2) }
        publish_exclude_fields [] 5 true [1] cycleDB = (.permissionDenied, cycleDB, []) ∧
    ((publish_selected { registered := true, has_publish_permission := fun k => !(k == 2) }
        publish_exclude_fields [] 5 false [1] cycleDB).1 ≠ .permissionDenied ∧
      (publish_selected { registered := true, has_publish_permission := fun k => !(k == 2) }
        publish_exclude_fields [] 5 false [1] cycleDB).2.1 = cycleDB ∧
      (publish_selected { registered := true, has_publish_permission := fun k => !(k == 2) }
        publish_exclude_fields [] 5 false [1] cycleDB).2.2 = []) :=
  ⟨publish_selected_batch_atomicity.1
      { registered := true, has_publish_permission := fun k => !(k == 2) }
      publish_exclude_fields [] 5 [1] cycleDB 2 (by decide) rfl rfl,
   publish_selected_batch_atomicity.2
      { registered := true, has_publish_permission := fun k => !(k == 2) }
      publish_exclude_fields [] 5 [1] cycleDB⟩

/-- C9: the `__mro__` walk of `PublishMeta.excluded_fields` always
yields the identity, `is_public`, `publish_state` and `public` entries
for any chain containing the base class's list (every subclass's chain
does), together with inherited entries; and a field whose name is in
the exclusion set is skipped by both copy loops of `publish` — shown
structurally for each loop and end-to-end on a concrete subclass
excluding `secret` and `log`: after publishing a CHANGED draft whose
excluded values differ, the mirror's `secret` value and `log` link set
are untouched while `title` and `rel` are copied. -/
theorem exclusion_respected :
    (∀ (mro : List (List String)), publish_exclude_fields ∈ mro →
      ∀ n ∈ publish_exclude_fields, n ∈ PublishMeta.excluded_fields mro) ∧
    (∀ (excl : List String) (pub : Obj → List Nat → DB → List Nat → PubOut)
        (nm : String) (val : FieldVal) (rest : List (String × FieldVal))
        (mir : Obj) (v : List Nat) (db : DB) (lg : List Nat),
      nm ∈ excl →
      copyFields excl pub ((nm, val) :: rest) mir v db lg =
        copyFields excl pub rest mir v db lg) ∧
    (∀ (excl : List String) (pub : Obj → List Nat → DB → List Nat → PubOut)
        (dk : Nat) (mk : Option Nat) (nm : String) (isPub : Bool)
        (rest : List (String × Bool)) (v : List Nat) (db : DB) (lg : List Nat),
      nm ∈ excl →
      m2mLoop excl pub dk mk ((nm, isPub) :: rest) v db lg =
        m2mLoop excl pub dk mk rest v db lg) ∧
    (((Publishable.publish secretExcl secretSch 5 secretDraft [] secretDB []).dbOut.get 2).map
        (fun m => m.getField "secret") = some (some (.scalar 7)) ∧
      ((Publishable.publish secretExcl secretSch 5 secretDraft [] secretDB []).dbOut.get 2).map
        (fun m => m.getField "title") = some (some (.scalar 5)) ∧
      (Publishable.publish secretExcl secretSch 5 secretDraft [] secretDB []).dbOut.getLinks
        2 "log" = [13] ∧
      (Publishable.publish secretExcl secretSch 5 secretDraft [] secretDB []).dbOut.getLinks
        2 "rel" = [12]) := by
  refine ⟨?_, ?_, ?_, by refine ⟨?_, ?_, ?_, ?_⟩ <;> decide⟩
  · intro mro hbase n hn
    induction mro with
    | nil => exact absurd hbase (List.not_mem_nil _)
    | cons l t ih =>
      rcases List.mem_cons.mp hbase with h | h
      · subst h
        exact List.mem_append_left _ hn
      · exact List.mem_append_right _ (ih h)
  · intro excl pub nm val rest mir v db lg hnm
    simp [copyFields, hnm]
  · intro excl pub dk mk nm isPub rest v db lg hnm
    simp [m2mLoop, hnm]

/-- Witness for C9: the four base names are in the concrete subclass's
resolved exclusion set, and the skip equations applied at the `secret`
and `log` fields of the concrete scenario. -/
theorem exclusion_respected_witness :
    ("id" ∈ PublishMeta.excluded_fields [["secret", "log"], publish_exclude_fields] ∧
      "is_public" ∈ PublishMeta.excluded_fields [["secret", "log"], publish_exclude_fields] ∧
      "publish_state" ∈ PublishMeta.excluded_fields [["secret", "log"], publish_exclude_fields] ∧
      "public" ∈ PublishMeta.excluded_fields [["secret", "log"], publish_exclude_fields]) ∧
    copyFields secretExcl (Publishable.publish secretExcl secretSch 4)
        [("secret", .scalar 99)] secretDraft [1] secretDB [1] =
      copyFields secretExcl (Publishable.publish secretExcl secretSch 4)
        [] secretDraft [1] secretDB [1] ∧
    m2mLoop secretExcl (Publishable.publish secretExcl secretSch 4) 1 (some 2)
        [("log", false)] [1] secretDB [1] =
      m2mLoop secretExcl (Publishable.publish secretExcl secretSch 4) 1 (some 2)
        [] [1] secretDB [1] :=
  ⟨⟨exclusion_respected.1 [["secret", "log"], publish_exclude_fields] (by decide)
      "id" (by decide),
    exclusion_respected.1 [["secret", "log"], publish_exclude_fields] (by decide)
      "is_public" (by decide),
    exclusion_respected.1 [["secret", "log"], publish_exclude_fields] (by decide)
      "publish_state" (by decide),
    exclusion_respected.1 [["secret", "log"], publish_exclude_fields] (by decide)
      "public" (by decide)⟩,
   exclusion_respected.2.1 secretExcl (Publishable.publish secretExcl secretSch 4)
      "secret" (.scalar 99) [] secretDraft [1] secretDB [1] (by decide),
   exclusion_respected.2.2.1 secretExcl (Publishable.publish secretExcl secretSch 4)
      1 (some 2) "log" false [] [1] secretDB [1] (by decide)⟩

/-- Writing via `setLinksGo` leaves the stored list retrievable under its key. -/
theorem find?_setLinksGo (owner : Nat) (nm : String) (ls : List Nat) :
    ∀ l : List (Nat × String × List Nat),
    (setLinksGo owner nm ls l).find? (fun e => e.1 == owner && e.2.1 == nm) =
      some (owner, nm, ls) := by
  intro l
  induction l with
  | nil =>
    simp [setLinksGo, List.find?]
  | cons e rest ih =>
    by_cases h : (e.1 == owner && e.2.1 == nm) = true
    · simp [setLinksGo, h, List.find?]
    · rw [show setLinksGo owner nm ls (e :: rest) = e :: setLinksGo owner nm ls rest by
        simp [setLinksGo, h]]
      rw [List.find?_cons_of_neg _ (by simp [h])]
      exact ih

/-- Reading back a just-written link set. -/
theorem getLinks_setLinks_self (db : DB) (owner : Nat) (nm : String) (ls : List Nat) :
    (db.setLinks owner nm ls).getLinks owner nm = ls := by
  simp [DB.getLinks, DB.setLinks, find?_setLinksGo]

/-- Writing via `setLinks` does not touch the rows. -/
theorem setLinks_objs (db : DB) (owner : Nat) (nm : String) (ls : List Nat) :
    (db.setLinks owner nm ls).objs = db.objs := rfl

/-- The remove-then-add sequence of the many-to-many copy produces
exactly the target membership: no stale entries, no missing entries. -/
theorem mem_m2mUpdate (x : Nat) (cur tgt : List Nat) :
    x ∈ m2mUpdate cur tgt ↔ x ∈ tgt := by
  unfold m2mUpdate
  constructor
  · intro hx
    rcases List.mem_append.mp hx with h | h
    · have h2 := (List.mem_filter.mp h).2
      simpa using h2
    · exact (List.mem_filter.mp h).1
  · intro hx
    by_cases h : x ∈ cur.filter (fun y => tgt.contains y)
    · exact List.mem_append.mpr (.inl h)
    · refine List.mem_append.mpr (.inr (List.mem_filter.mpr ⟨hx, ?_⟩))
      have h2 : x ∈ cur → x ∉ tgt := by simpa using h
      have h3 : x ∉ cur ∨ x ∉ tgt := by
        by_cases hc : x ∈ cur
        · exact Or.inr (h2 hc)
        · exact Or.inl hc
      simpa using h3

/-- A linked draft that is already in sync (DEFAULT state, persisted
mirror, empty link set whose mirror-side entry is already empty) is
published by the many-to-many mapping as a pure read: it returns the
existing mirror and leaves the database exactly unchanged, logging one
body run. -/
theorem publish_default_linked (excl : List String) (nm : String) (f q mq : Nat)
    (dq mobj : Obj) (db : DB) (lg : List Nat)
    (hget : db.get q = some dq) (hip : dq.is_public = false)
    (hst : dq.publish_state = PUBLISH_DEFAULT) (hpub : dq.public = some mq)
    (hmq : db.get mq = some mobj) (hnm : nm ∉ excl)
    (hlq : db.getLinks q nm = []) (hset : db.setLinks mq nm [] = db) :
    Publishable.publish excl [(nm, true)] (f + 1) dq [] db lg =
      .ok (some mobj) [q] db (lg ++ [q]) := by
  have hqpk : dq.pk = some q := DB.get_pk hget
  have hmqpk : mobj.pk = some mq := DB.get_pk hmq
  rw [publish_unfold_succ]
  simp [publishSucc, hip, hqpk, hpub, hmq, publishCore, hst, PUBLISH_DEFAULT,
    PUBLISH_CHANGED, m2mLoop, hnm, hmqpk, hlq, mapPublish, m2mUpdate, hset]

/-- The many-to-many mapping over a list of already-synced linked
drafts returns their mirrors' pks and leaves the database exactly
unchanged. -/
theorem mapPublish_defaults (excl : List String) (nm : String) (f : Nat)
    (db : DB) (mir : Nat → Nat) :
    ∀ (links : List Nat) (v : List Nat) (lg : List Nat),
    (∀ q ∈ links, ∃ dq mobj, db.get q = some dq ∧ dq.is_public = false ∧
      dq.publish_state = PUBLISH_DEFAULT ∧ dq.public = some (mir q) ∧
      db.get (mir q) = some mobj ∧ db.getLinks q nm = [] ∧
      db.setLinks (mir q) nm [] = db) →
    nm ∉ excl →
    ∃ lg2, mapPublish (Publishable.publish excl [(nm, true)] (f + 1)) links v db lg =
      .ok (links.map (fun q => some (mir q))) v db lg2 := by
  intro links
  induction links with
  | nil => intro v lg _ _; exact ⟨lg, rfl⟩
  | cons q rest ih =>
    intro v lg h hnm
    obtain ⟨dq, mobj, hget, hip, hst, hpub, hmq, hlq, hset⟩ := h q (List.mem_cons_self _ _)
    obtain ⟨lg2, hrest⟩ := ih v (lg ++ [q]) (fun r hr => h r (List.mem_cons_of_mem _ hr)) hnm
    refine ⟨lg2, ?_⟩
    have hA := publish_default_linked excl nm f q (mir q) dq mobj db lg
      hget hip hst hpub hmq hnm hlq hset
    have hmqpk : mobj.pk = some (mir q) := DB.get_pk hmq
    simp [mapPublish, hget, hA, hrest, hmqpk]

/-- C5 counterexample: on a persisted draft at DEFAULT with NO mirror,
the unconditional many-to-many step does not converge — it fails when
the manager of the unsaved fresh mirror is requested (Django's
ValueError, models.py line 116 with the unsaved `public_version` of
line 85), leaving the database unchanged; there is no post-state whose
link sets match. -/
theorem m2m_unsaved_mirror_counterexample :
    (Publishable.publish publish_exclude_fields [("rel", false)] 5
        plainDefaultDraft [] plainDefaultDB []).errOf = some .m2mOnUnsaved ∧
    (Publishable.publish publish_exclude_fields [("rel", false)] 5
        plainDefaultDraft [] plainDefaultDB []).dbOut = plainDefaultDB := by
  exact ⟨by decide, by decide⟩

/-- C5 (amended): on a publish call on a persisted draft whose mirror
exists and is persisted, the many-to-many copy runs unconditionally
even at `publish_state` DEFAULT — no row is written, yet afterwards the
mirror's non-excluded multi-reference set equals exactly the draft's
linked set mapped to public equivalents: for a publishable related
model every link is replaced by its published mirror (stated for
already-synced linked drafts), for a non-publishable related model the
links are kept as-is; membership is exact — no stale and no missing
entries.  When the draft is at DEFAULT with no mirror the step instead
fails on the unsaved mirror. -/
theorem m2m_convergence :
    (∀ (excl : List String) (nm : String) (f k mk : Nat) (d m : Obj) (db : DB)
        (mir : Nat → Nat),
      d.is_public = false → d.pk = some k → d.publish_state = PUBLISH_DEFAULT →
      d.public = some mk → db.get mk = some m → nm ∉ excl →
      (∀ q ∈ db.getLinks k nm, ∃ dq mobj, db.get q = some dq ∧ dq.is_public = false ∧
        dq.publish_state = PUBLISH_DEFAULT ∧ dq.public = some (mir q) ∧
        db.get (mir q) = some mobj ∧ db.getLinks q nm = [] ∧
        db.setLinks (mir q) nm [] = db) →
      ∃ db2 lg2,
        Publishable.publish excl [(nm, true)] (f + 2) d [] db [] =
          .ok (some m) [k] db2 lg2 ∧
        db2.objs = db.objs ∧
        (∀ x, x ∈ db2.getLinks mk nm ↔ x ∈ (db.getLinks k nm).map mir)) ∧
    (∀ (excl : List String) (nm : String) (f k mk : Nat) (d m : Obj) (db : DB),
      d.is_public = false → d.pk = some k → d.publish_state = PUBLISH_DEFAULT →
      d.public = some mk → db.get mk = some m → nm ∉ excl →
      ∃ db2,
        Publishable.publish excl [(nm, false)] (f + 1) d [] db [] =
          .ok (some m) [k] db2 [k] ∧
        db2.objs = db.objs ∧
        (∀ x, x ∈ db2.getLinks mk nm ↔ x ∈ db.getLinks k nm)) := by
  constructor
  · intro excl nm f k mk d m db mir hip hpk hst hpub hm hnm hlinks
    have hmpk : m.pk = some mk := DB.get_pk hm
    obtain ⟨lg2, hmap⟩ :=
      mapPublish_defaults excl nm f db mir (db.getLinks k nm) [k] [k] hlinks hnm
    refine ⟨db.setLinks mk nm
      (m2mUpdate (db.getLinks mk nm) ((db.getLinks k nm).map mir)), lg2, ?_, rfl, ?_⟩
    · have hf : (f : Nat) + 2 = (f + 1) + 1 := rfl
      rw [hf, publish_unfold_succ]
      have hnone : ((db.getLinks k nm).map (fun q => some (mir q))).any
          (fun p => p.isNone) = false := by simp
      have hfm : ((db.getLinks k nm).map (fun q => some (mir q))).filterMap id =
          (db.getLinks k nm).map mir := by
        induction db.getLinks k nm with
        | nil => rfl
        | cons a t ih => simp only [List.map_cons, List.filterMap_cons, id] at ih ⊢; rw [ih]
      simp [publishSucc, hip, hpk, hpub, hm, publishCore, hst, PUBLISH_DEFAULT,
        PUBLISH_CHANGED, m2mLoop, hnm, hmpk, hmap, hnone, hfm]
    · intro x
      rw [getLinks_setLinks_self]
      exact mem_m2mUpdate x _ _
  · intro excl nm f k mk d m db hip hpk hst hpub hm hnm
    have hmpk : m.pk = some mk := DB.get_pk hm
    refine ⟨db.setLinks mk nm (m2mUpdate (db.getLinks mk nm) (db.getLinks k nm)), ?_, rfl, ?_⟩
    · rw [publish_unfold_succ]
      simp [publishSucc, hip, hpk, hpub, hm, publishCore, hst, PUBLISH_DEFAULT,
        PUBLISH_CHANGED, m2mLoop, hnm, hmpk]
    · intro x
      rw [getLinks_setLinks_self]
      exact mem_m2mUpdate x _ _

/-- Witness for C5: in `m2mDB`, publishing the in-sync draft 1 maps
its link 3 to mirror 4 on the mirror's link set (the stale entry 9
disappears) while no row changes; with a non-publishable related model
the links carry over unchanged. -/
theorem m2m_convergence_witness :
    (∃ db2 lg2,
      Publishable.publish publish_exclude_fields [("rel", true)] 6 m2mDraft [] m2mDB [] =
        .ok (some { pk := some 2, is_public := true, publish_state := 0, public := none, fields := [] }) [1] db2 lg2 ∧
      db2.objs = m2mDB.objs ∧
      (∀ x, x ∈ db2.getLinks 2 "rel" ↔ x ∈ (m2mDB.getLinks 1 "rel").map (fun _ => 4))) ∧
    (∃ db2,
      Publishable.publish publish_exclude_fields [("rel", false)] 6 m2mDraft [] m2mDB [] =
        .ok (some { pk := some 2, is_public := true, publish_state := 0, public := none, fields := [] }) [1] db2 [1] ∧
      db2.objs = m2mDB.objs ∧
      (∀ x, x ∈ db2.getLinks 2 "rel" ↔ x ∈ m2mDB.getLinks 1 "rel")) :=
  ⟨m2m_convergence.1 publish_exclude_fields "rel" 4 1 2 m2mDraft
      { pk := some 2, is_public := true, publish_state := 0, public := none, fields := [] }
      m2mDB (fun _ => 4) rfl rfl rfl rfl (by decide) (by decide)
      (by
        intro q hq
        have h3 : m2mDB.getLinks 1 "rel" = [3] := by decide
        rw [h3] at hq
        rcases List.mem_singleton.mp hq with rfl
        exact ⟨mkDraft 3 0 (some 4) [],
          { pk := some 4, is_public := true, publish_state := 0, public := none, fields := [] },
          by decide, rfl, rfl, rfl, by decide, by decide, by decide⟩),
   m2m_convergence.2 publish_exclude_fields "rel" 5 1 2 m2mDraft
      { pk := some 2, is_public := true, publish_state := 0, public := none, fields := [] }
      m2mDB rfl rfl rfl rfl (by decide) (by decide)⟩

end DjangoPublish
